import Mathlib

/-!
# Verification of the okaywal write-ahead log configuration and recovery model

This development shallowly embeds the `okaywal` crate's configuration layer
(`src/config.rs`) and, where the engine itself is only specified, a model of
the entry framing / recovery scanner built from the specification's words.

Machine integers are modelled as `Nat` with explicit `% 2^w` where the Rust
code performs arithmetic in a fixed-width type; bytes are `Nat` values and
byte sequences are `List Nat`.
-/

namespace Okaywal

/-! ## Configuration (`src/config.rs`) -/

/-- Model of `file_manager::fs::StdFileManager`: an external collaborator with
no observable state at this layer. -/
structure StdFileManager where

/-- `StdFileManager::default()`. -/
def StdFileManager.default : StdFileManager := {}

/-- Embedding of `Configuration<M>` from `src/config.rs`.  `PathId` is
modelled as a `String`; `Arc<Vec<u8>>` as a `List Nat` of bytes;
`u32`/`u64`/`usize`/`u16` fields as `Nat` (the constructors below only ever
store in-range values, and the setters store the caller's value verbatim,
exactly as the Rust setters do). -/
structure Configuration (M : Type) where
  file_manager : M
  directory : String
  preallocate_bytes : Nat
  checkpoint_after_bytes : Nat
  buffer_bytes : Nat
  version_info : List Nat
  max_disk_usage_percent : Nat
deriving Repr, DecidableEq

/-- `fn kilobytes<T>(bytes: T) -> T { bytes * T::from(1024) }`, in the
arithmetic of a `w`-bit unsigned type. -/
def kilobytes (w : Nat) (n : Nat) : Nat := n * 1024 % 2 ^ w

/-- `fn megabytes<T>(megs: T) -> T { kilobytes(megs) * T::from(1024) }`, in
the arithmetic of a `w`-bit unsigned type. -/
def megabytes (w : Nat) (n : Nat) : Nat := kilobytes w n * 1024 % 2 ^ w

/-- `Configuration::default_with_manager` (`src/config.rs` lines 70–80).
`preallocate_bytes` is a `u32`, `checkpoint_after_bytes` a `u64`,
`buffer_bytes` a `usize` (modelled as 64-bit). -/
def Configuration.default_with_manager {M : Type} (path : String) (file_manager : M) :
    Configuration M where
  file_manager := file_manager
  directory := path
  preallocate_bytes := megabytes 32 1
  checkpoint_after_bytes := kilobytes 64 768
  buffer_bytes := kilobytes 64 16
  version_info := []
  max_disk_usage_percent := 95

/-- `Configuration::default_for` (`src/config.rs` lines 54–56). -/
def Configuration.default_for (path : String) : Configuration StdFileManager :=
  Configuration.default_with_manager path StdFileManager.default

/-- `impl Default for Configuration<StdFileManager>` (`src/config.rs`
lines 40–44). -/
def Configuration.default : Configuration StdFileManager :=
  Configuration.default_for "okaywal"

/-- Builder setter `Configuration::preallocate_bytes` (`src/config.rs`
lines 86–89); named `withPreallocateBytes` because the field projection
already carries the Rust name. -/
def Configuration.withPreallocateBytes {M : Type} (c : Configuration M) (bytes : Nat) :
    Configuration M :=
  { c with preallocate_bytes := bytes }

/-- Builder setter `Configuration::checkpoint_after_bytes` (`src/config.rs`
lines 100–103). -/
def Configuration.withCheckpointAfterBytes {M : Type} (c : Configuration M) (bytes : Nat) :
    Configuration M :=
  { c with checkpoint_after_bytes := bytes }

/-- Builder setter `Configuration::buffer_bytes` (`src/config.rs`
lines 107–110). -/
def Configuration.withBufferBytes {M : Type} (c : Configuration M) (bytes : Nat) :
    Configuration M :=
  { c with buffer_bytes := bytes }

/-! ## `WriteAheadLog::open` (modelled from the spec)

The crate's `WriteAheadLog` type is not under `src/`; only its caller
(`Configuration::open`) is.  We model the open-time behaviour from the
specification. -/

/-- The error taxonomy surfaced by `open`, per the spec:
`open(configuration, log_manager) -> WriteAheadLog | IoError`. -/
inductive IoError where
  | invalidMaxDiskUsagePercent : IoError
  | versionInfoTooLong : IoError
deriving Repr, DecidableEq

/-- Log Manager callback interface, per the spec:
`recover(entry_bytes, lsn) -> Continue|Abort`. -/
inductive RecoveryAction where
  | Continue : RecoveryAction
  | Abort : RecoveryAction
deriving Repr, DecidableEq

/-- Modelled from the spec: the host-implemented Log Manager interface,
`{recover, checkpoint}` (the engine code implementing its use is not under
`src/`).  `checkpoint` returns the reclaimable segment sequence numbers. -/
structure LogManager where
  recover : List Nat → Nat → RecoveryAction
  checkpoint : Nat → List Nat

/-- Modelled from the spec: the handle returned by a successful `open`.  The
engine's runtime state is not under `src/`; at this layer a `WriteAheadLog`
carries the validated configuration it was opened with. -/
structure WriteAheadLog (M : Type) where
  config : Configuration M

/-- Modelled from the spec: `WriteAheadLog::open` is not under `src/` (only
its declaration site and caller are).  The spec requires the configuration to
be "validated at `open` time (reject invalid `max_disk_usage_percent`,
oversized `version_info`)", with `version_info` ≤ 255 bytes and
`max_disk_usage_percent` ∈ [0,100]. -/
def WriteAheadLog.open {M : Type} (config : Configuration M) (_manager : LogManager) :
    Except IoError (WriteAheadLog M) :=
  if 100 < config.max_disk_usage_percent then
    .error .invalidMaxDiskUsagePercent
  else if 255 < config.version_info.length then
    .error .versionInfoTooLong
  else
    .ok { config := config }

/-- `Configuration::open` (`src/config.rs` lines 113–115): delegates to
`WriteAheadLog::open(self, manager)`. -/
def Configuration.open {M : Type} (c : Configuration M) (manager : LogManager) :
    Except IoError (WriteAheadLog M) :=
  WriteAheadLog.open c manager

/-! ## Entry framing and the recovery scanner (modelled from the spec)

The Entry Framer, Active Writer and Recovery Scanner are not under `src/`.
They are modelled from the specification: a chunk is
`{length:u32, checksum:u32, continuation:bool, fragment bytes}`; the recovery
scanner reads chunks sequentially, reconstructs entries by concatenating
fragments across continuation chunks, verifies each chunk's checksum, and
stops at the first chunk that fails checksum verification, is truncated
(fewer bytes present than its declared length), or is absent, discarding
everything from that point on.

The log's written region is modelled as the concatenated stream of chunk
bytes (segment headers and cross-segment concatenation do not affect which
entries the scanner replays, since with no mid-stream corruption the scanner
walks all segments in order and a torn tail ends the scan). -/

/-- Modelled from the spec: the chunk checksum.  The spec leaves the
algorithm open ("e.g., a 32-bit CRC ... unspecified"); we model it as the
byte sum modulo 2^32, a 32-bit value as required by the chunk layout. -/
def checksum (fragment : List Nat) : Nat :=
  fragment.foldl (· + ·) 0 % 2 ^ 32

/-- A `u32` little-endian byte encoding, as used for a chunk's length and
checksum fields. -/
def toBytes4 (n : Nat) : List Nat :=
  [n % 256, n / 256 % 256, n / 65536 % 256, n / 16777216 % 256]

/-- Decode a `u32` from four little-endian bytes. -/
def fromBytes4 (b0 b1 b2 b3 : Nat) : Nat :=
  b0 + 256 * b1 + 65536 * b2 + 16777216 * b3

/-- Modelled from the spec: one chunk as written by the Entry Framer:
4-byte length, 4-byte checksum of the fragment, a continuation flag byte
(1 when more chunks follow for this entry, 0 on the final chunk), then the
fragment itself. -/
def encodeChunk (continuation : Nat) (fragment : List Nat) : List Nat :=
  toBytes4 fragment.length ++ toBytes4 (checksum fragment) ++ continuation :: fragment

/-- Modelled from the spec: a fully appended entry written as a single final
chunk (within a segment an entry "is written as a single chunk when it fits
the remaining preallocated space"; the concatenated-stream model has no
segment boundary to cross). -/
def encodeEntry (entry : List Nat) : List Nat :=
  encodeChunk 0 entry

/-- The byte stream produced by appending a sequence of entries in order. -/
def encodeAll (entries : List (List Nat)) : List Nat :=
  (entries.map encodeEntry).flatten

/-- Modelled from the spec: the recovery scanner's chunk walk.  `pending`
holds the fragments of an entry whose continuation chunks have been read but
whose final chunk has not.  Reading stops (returning the entries replayed so
far) at the first absent, truncated, or checksum-failing chunk; an entry
whose final chunk was never reached is discarded (unit of atomicity). -/
def recoverFrom (s : List Nat) (pending : List Nat) : List (List Nat) :=
  match s with
  | b0 :: b1 :: b2 :: b3 :: c0 :: c1 :: c2 :: c3 :: f :: rest =>
    let len := fromBytes4 b0 b1 b2 b3
    if rest.length < len then
      []
    else if checksum (rest.take len) = fromBytes4 c0 c1 c2 c3 then
      if f = 1 then
        recoverFrom (rest.drop len) (pending ++ rest.take len)
      else
        (pending ++ rest.take len) :: recoverFrom (rest.drop len) []
    else
      []
  | _ => []
termination_by s.length
decreasing_by
  all_goals simp [List.length_drop]; omega

/-- Modelled from the spec: recovery of a log from its byte stream — the
sequence of entries replayed to the Log Manager, in order. -/
def recover (s : List Nat) : List (List Nat) :=
  recoverFrom s []

/-! ## Lemmas about the recovery scanner -/

/-- Little-endian `u32` decode inverts the byte split for values below 2^32. -/
theorem fromBytes4_parts (n : Nat) (h : n < 2 ^ 32) :
    fromBytes4 (n % 256) (n / 256 % 256) (n / 65536 % 256) (n / 16777216 % 256) = n := by
  unfold fromBytes4
  omega

/-- `checksum` always fits in 32 bits. -/
theorem checksum_lt (fragment : List Nat) : checksum fragment < 2 ^ 32 := by
  unfold checksum
  exact Nat.mod_lt _ (by norm_num)

/-- Unfolding `recoverFrom` on a stream holding at least a chunk header. -/
theorem recoverFrom_cons (b0 b1 b2 b3 c0 c1 c2 c3 f : Nat) (rest pending : List Nat) :
    recoverFrom (b0 :: b1 :: b2 :: b3 :: c0 :: c1 :: c2 :: c3 :: f :: rest) pending =
      if rest.length < fromBytes4 b0 b1 b2 b3 then []
      else if checksum (rest.take (fromBytes4 b0 b1 b2 b3)) = fromBytes4 c0 c1 c2 c3 then
        if f = 1 then
          recoverFrom (rest.drop (fromBytes4 b0 b1 b2 b3))
            (pending ++ rest.take (fromBytes4 b0 b1 b2 b3))
        else
          (pending ++ rest.take (fromBytes4 b0 b1 b2 b3)) ::
            recoverFrom (rest.drop (fromBytes4 b0 b1 b2 b3)) []
      else [] := by
  rw [recoverFrom]

/-- A stream too short to hold a chunk header recovers nothing. -/
theorem recoverFrom_short (s pending : List Nat) (h : s.length < 9) :
    recoverFrom s pending = [] := by
  rw [recoverFrom.eq_def]
  split
  · exfalso
    simp at h
    omega
  · rfl

/-- Scanning a stream that starts with one whole entry's chunk replays that
entry (appended to any pending fragments) and continues with the remainder. -/
theorem recoverFrom_encodeEntry (e rest pending : List Nat) (h : e.length < 2 ^ 32) :
    recoverFrom (encodeEntry e ++ rest) pending = (pending ++ e) :: recoverFrom rest [] := by
  simp only [encodeEntry, encodeChunk, toBytes4, List.cons_append, List.nil_append,
    List.append_assoc]
  rw [recoverFrom_cons, fromBytes4_parts e.length h,
    fromBytes4_parts (checksum e) (checksum_lt e)]
  rw [if_neg (by simp), List.take_left, List.drop_left, if_pos rfl, if_neg (by omega)]

/-- Scanning the encoding of a sequence of entries followed by any remainder
replays those entries then continues with the remainder. -/
theorem recoverFrom_encodeAll (entries : List (List Nat)) (rest : List Nat)
    (h : ∀ e ∈ entries, e.length < 2 ^ 32) :
    recoverFrom (encodeAll entries ++ rest) [] = entries ++ recoverFrom rest [] := by
  induction entries with
  | nil => simp [encodeAll]
  | cons e es ih =>
    have he : e.length < 2 ^ 32 := h e (by simp)
    have hes : ∀ x ∈ es, x.length < 2 ^ 32 := fun x hx => h x (by simp [hx])
    simp only [encodeAll, List.map_cons, List.flatten_cons, List.append_assoc]
    rw [recoverFrom_encodeEntry e _ [] he]
    simp only [List.nil_append, List.cons_append]
    rw [show (List.map encodeEntry es).flatten = encodeAll es from rfl, ih hes]

/-- A strict byte-level truncation of a single entry's chunk is detected as a
torn tail: nothing is replayed from it. -/
theorem recoverFrom_torn (e : List Nat) (k : Nat) (pending : List Nat)
    (he : e.length < 2 ^ 32) (hk : k < (encodeEntry e).length) :
    recoverFrom ((encodeEntry e).take k) pending = [] := by
  by_cases h9 : k < 9
  · exact recoverFrom_short _ _ (by simp [List.length_take]; omega)
  · obtain ⟨j, rfl⟩ : ∃ j, k = j + 9 := ⟨k - 9, by omega⟩
    have hj : j < e.length := by
      simp [encodeEntry, encodeChunk, toBytes4] at hk
      omega
    simp only [encodeEntry, encodeChunk, toBytes4, List.cons_append, List.nil_append]
    rw [show j + 9 = (j + 8) + 1 by omega, List.take_succ_cons,
      show j + 8 = (j + 7) + 1 by omega, List.take_succ_cons,
      show j + 7 = (j + 6) + 1 by omega, List.take_succ_cons,
      show j + 6 = (j + 5) + 1 by omega, List.take_succ_cons,
      show j + 5 = (j + 4) + 1 by omega, List.take_succ_cons,
      show j + 4 = (j + 3) + 1 by omega, List.take_succ_cons,
      show j + 3 = (j + 2) + 1 by omega, List.take_succ_cons,
      show j + 2 = (j + 1) + 1 by omega, List.take_succ_cons,
      show j + 1 = j + 1 by rfl, List.take_succ_cons]
    rw [recoverFrom_cons, fromBytes4_parts e.length he]
    rw [if_pos (by simp [List.length_take]; omega)]

/-- The empty stream recovers nothing. -/
theorem recoverFrom_nil (pending : List Nat) : recoverFrom [] pending = [] :=
  recoverFrom_short [] pending (by simp)

/-- `megabytes` is multiplication by 1024² in `w`-bit arithmetic: the
intermediate reduction inside `kilobytes` does not change the result. -/
theorem megabytes_eq (w n : Nat) : megabytes w n = n * 1024 * 1024 % 2 ^ w := by
  unfold megabytes kilobytes
  exact Nat.ModEq.mul_right 1024 (Nat.mod_modEq (n * 1024) (2 ^ w))

/-! ## Claims -/

/-- C1: For every sequence of entries appended with no crash, recovery after
a clean close replays exactly those entries, in append order, with each
payload byte-for-byte unchanged (append-then-recover is a round-trip).
Each entry's length must fit the chunk header's `u32` length field. -/
theorem C1_append_then_recover_round_trip (entries : List (List Nat))
    (h : ∀ e ∈ entries, e.length < 2 ^ 32) :
    recover (encodeAll entries) = entries := by
  unfold recover
  have := recoverFrom_encodeAll entries [] h
  rw [List.append_nil] at this
  rw [this, recoverFrom_nil, List.append_nil]

/-- Witness for C1 at a concrete entry sequence (including a zero-length
entry, which the spec declares legal). -/
theorem C1_append_then_recover_round_trip_witness :
    recover (encodeAll [[1, 2, 3], [], [255, 0]]) = [[1, 2, 3], [], [255, 0]] :=
  C1_append_then_recover_round_trip [[1, 2, 3], [], [255, 0]] (by decide)

/-- C2: After fully appending `entries` and crashing mid-write of `next`
(leaving a strict byte-level truncation of its chunk on disk), recovery
replays exactly the prior entries and ignores the torn one; and appending
`fresh` after recovery (at the resume position, overwriting the torn tail)
yields a log whose later recovery replays the prior entries followed by
`fresh`. -/
theorem C2_torn_tail_recovery (entries : List (List Nat)) (next fresh : List Nat) (k : Nat)
    (h : ∀ e ∈ entries, e.length < 2 ^ 32) (hnext : next.length < 2 ^ 32)
    (hfresh : fresh.length < 2 ^ 32) (hk : k < (encodeEntry next).length) :
    recover (encodeAll entries ++ (encodeEntry next).take k) = entries ∧
    recover (encodeAll entries ++ encodeEntry fresh) = entries ++ [fresh] := by
  constructor
  · unfold recover
    rw [recoverFrom_encodeAll entries _ h, recoverFrom_torn next k [] hnext hk,
      List.append_nil]
  · unfold recover
    rw [recoverFrom_encodeAll entries _ h]
    have hf := recoverFrom_encodeEntry fresh [] [] hfresh
    rw [List.append_nil, recoverFrom_nil, List.nil_append] at hf
    rw [hf]

/-- Witness for C2: two entries survive a crash that tore the next chunk
after 10 of its 12 bytes, and a post-recovery append is recoverable. -/
theorem C2_torn_tail_recovery_witness :
    recover (encodeAll [[1, 2], [3]] ++ (encodeEntry [4, 5, 6]).take 10) = [[1, 2], [3]] ∧
    recover (encodeAll [[1, 2], [3]] ++ encodeEntry [9]) = [[1, 2], [3], [9]] :=
  C2_torn_tail_recovery [[1, 2], [3]] [4, 5, 6] [9] 10
    (by decide) (by decide) (by decide) (by decide)

/-- C3: A configuration whose `max_disk_usage_percent` exceeds 100 or whose
`version_info` is longer than 255 bytes is rejected by `Configuration::open`
with an error rather than a `WriteAheadLog`. -/
theorem C3_open_rejects_invalid_configuration {M : Type} (c : Configuration M)
    (manager : LogManager)
    (h : 100 < c.max_disk_usage_percent ∨ 255 < c.version_info.length) :
    ∃ e : IoError, Configuration.open c manager = .error e := by
  unfold Configuration.open WriteAheadLog.open
  by_cases h100 : 100 < c.max_disk_usage_percent
  · exact ⟨.invalidMaxDiskUsagePercent, by rw [if_pos h100]⟩
  · have h255 : 255 < c.version_info.length := h.resolve_left h100
    exact ⟨.versionInfoTooLong, by rw [if_neg h100, if_pos h255]⟩

/-- Witness for C3: the default configuration with `max_disk_usage_percent`
set to 101 is rejected. -/
theorem C3_open_rejects_invalid_configuration_witness :
    ∃ e : IoError,
      Configuration.open { Configuration.default with max_disk_usage_percent := 101 }
        ⟨fun _ _ => .Continue, fun _ => []⟩ = .error e :=
  C3_open_rejects_invalid_configuration _ _ (Or.inl (by decide))

/-- C4: Setting `checkpoint_after_bytes` to `b1` and `preallocate_bytes` to
`b2` with `b1 ≥ b2` succeeds: the builder setters are total, store exactly
the given values, and reject nothing — violating the
`checkpoint_after_bytes < preallocate_bytes` guideline is not an error. -/
theorem C4_guideline_violation_not_an_error {M : Type} (c : Configuration M) (b1 b2 : Nat)
    (_h : b2 ≤ b1) :
    ((c.withCheckpointAfterBytes b1).withPreallocateBytes b2).checkpoint_after_bytes = b1 ∧
    ((c.withCheckpointAfterBytes b1).withPreallocateBytes b2).preallocate_bytes = b2 :=
  ⟨rfl, rfl⟩

/-- Witness for C4: equal threshold and preallocation values are stored
verbatim. -/
theorem C4_guideline_violation_not_an_error_witness :
    ((Configuration.default.withCheckpointAfterBytes 4096).withPreallocateBytes
        4096).checkpoint_after_bytes = 4096 ∧
    ((Configuration.default.withCheckpointAfterBytes 4096).withPreallocateBytes
        4096).preallocate_bytes = 4096 :=
  C4_guideline_violation_not_an_error Configuration.default 4096 4096 (by decide)

/-- C5: for every path and file manager, `default_with_manager` satisfies the
spec's invariants: empty `version_info` (≤ 255 bytes),
`max_disk_usage_percent` 95 ∈ [0,100], and
`checkpoint_after_bytes` 786432 < `preallocate_bytes` 1048576. -/
theorem C5_default_configuration_invariants {M : Type} (path : String) (m : M) :
    (Configuration.default_with_manager path m).version_info.length ≤ 255 ∧
    (Configuration.default_with_manager path m).version_info = [] ∧
    (Configuration.default_with_manager path m).max_disk_usage_percent ≤ 100 ∧
    (Configuration.default_with_manager path m).max_disk_usage_percent = 95 ∧
    (Configuration.default_with_manager path m).checkpoint_after_bytes = 786432 ∧
    (Configuration.default_with_manager path m).preallocate_bytes = 1048576 ∧
    (Configuration.default_with_manager path m).checkpoint_after_bytes <
      (Configuration.default_with_manager path m).preallocate_bytes :=
  ⟨by show ([] : List Nat).length ≤ 255; decide, rfl,
    by show (95 : Nat) ≤ 100; decide, rfl,
    by show kilobytes 64 768 = 786432; decide,
    by show megabytes 32 1 = 1048576; decide,
    by show kilobytes 64 768 < megabytes 32 1; decide⟩

/-- C6: each builder setter changes only its own field to the given value;
`directory`, `file_manager`, `version_info` and `max_disk_usage_percent` are
unchanged by every setter. -/
theorem C6_setters_change_only_their_field {M : Type} (c : Configuration M) (b : Nat) :
    ((c.withPreallocateBytes b).file_manager = c.file_manager ∧
      (c.withPreallocateBytes b).directory = c.directory ∧
      (c.withPreallocateBytes b).checkpoint_after_bytes = c.checkpoint_after_bytes ∧
      (c.withPreallocateBytes b).buffer_bytes = c.buffer_bytes ∧
      (c.withPreallocateBytes b).version_info = c.version_info ∧
      (c.withPreallocateBytes b).max_disk_usage_percent = c.max_disk_usage_percent ∧
      (c.withPreallocateBytes b).preallocate_bytes = b) ∧
    ((c.withCheckpointAfterBytes b).file_manager = c.file_manager ∧
      (c.withCheckpointAfterBytes b).directory = c.directory ∧
      (c.withCheckpointAfterBytes b).preallocate_bytes = c.preallocate_bytes ∧
      (c.withCheckpointAfterBytes b).buffer_bytes = c.buffer_bytes ∧
      (c.withCheckpointAfterBytes b).version_info = c.version_info ∧
      (c.withCheckpointAfterBytes b).max_disk_usage_percent = c.max_disk_usage_percent ∧
      (c.withCheckpointAfterBytes b).checkpoint_after_bytes = b) ∧
    ((c.withBufferBytes b).file_manager = c.file_manager ∧
      (c.withBufferBytes b).directory = c.directory ∧
      (c.withBufferBytes b).preallocate_bytes = c.preallocate_bytes ∧
      (c.withBufferBytes b).checkpoint_after_bytes = c.checkpoint_after_bytes ∧
      (c.withBufferBytes b).version_info = c.version_info ∧
      (c.withBufferBytes b).max_disk_usage_percent = c.max_disk_usage_percent ∧
      (c.withBufferBytes b).buffer_bytes = b) :=
  ⟨⟨rfl, rfl, rfl, rfl, rfl, rfl, rfl⟩, ⟨rfl, rfl, rfl, rfl, rfl, rfl, rfl⟩,
    ⟨rfl, rfl, rfl, rfl, rfl, rfl, rfl⟩⟩

/-- C7: builder setters for distinct fields commute, and applying the same
setter twice keeps only the last value. -/
theorem C7_setters_commute_and_last_wins {M : Type} (c : Configuration M) (a b : Nat) :
    ((c.withPreallocateBytes a).withCheckpointAfterBytes b =
      (c.withCheckpointAfterBytes b).withPreallocateBytes a) ∧
    ((c.withPreallocateBytes a).withBufferBytes b =
      (c.withBufferBytes b).withPreallocateBytes a) ∧
    ((c.withCheckpointAfterBytes a).withBufferBytes b =
      (c.withBufferBytes b).withCheckpointAfterBytes a) ∧
    ((c.withPreallocateBytes a).withPreallocateBytes b = c.withPreallocateBytes b) ∧
    ((c.withCheckpointAfterBytes a).withCheckpointAfterBytes b =
      c.withCheckpointAfterBytes b) ∧
    ((c.withBufferBytes a).withBufferBytes b = c.withBufferBytes b) :=
  ⟨rfl, rfl, rfl, rfl, rfl, rfl⟩

/-- C8: `Configuration::open` is a pure delegation to `WriteAheadLog::open`:
it returns exactly that call's result, and on success the handle carries the
configuration unaltered; on failure it is an `IoError`. -/
theorem C8_configuration_open_delegates {M : Type} (c : Configuration M)
    (manager : LogManager) :
    Configuration.open c manager = WriteAheadLog.open c manager ∧
    ((∃ w : WriteAheadLog M, Configuration.open c manager = .ok w ∧ w.config = c) ∨
      (∃ e : IoError, Configuration.open c manager = .error e)) := by
  refine ⟨rfl, ?_⟩
  unfold Configuration.open WriteAheadLog.open
  by_cases h100 : 100 < c.max_disk_usage_percent
  · exact Or.inr ⟨.invalidMaxDiskUsagePercent, by rw [if_pos h100]⟩
  · by_cases h255 : 255 < c.version_info.length
    · exact Or.inr ⟨.versionInfoTooLong, by rw [if_neg h100, if_pos h255]⟩
    · exact Or.inl ⟨{ config := c }, by rw [if_neg h100, if_neg h255], rfl⟩

/-- C9: `default_for` delegates to `default_with_manager` with the standard
file manager, `Default::default` delegates to `default_for "okaywal"`, and
all three constructors agree on every field other than the directory and the
file manager. -/
theorem C9_default_constructors_agree {M : Type} (path path2 : String) (m : M) :
    Configuration.default_for path =
      Configuration.default_with_manager path StdFileManager.default ∧
    Configuration.default = Configuration.default_for "okaywal" ∧
    (Configuration.default_for path).preallocate_bytes =
      (Configuration.default_with_manager path2 m).preallocate_bytes ∧
    (Configuration.default_for path).checkpoint_after_bytes =
      (Configuration.default_with_manager path2 m).checkpoint_after_bytes ∧
    (Configuration.default_for path).buffer_bytes =
      (Configuration.default_with_manager path2 m).buffer_bytes ∧
    (Configuration.default_for path).version_info =
      (Configuration.default_with_manager path2 m).version_info ∧
    (Configuration.default_for path).max_disk_usage_percent =
      (Configuration.default_with_manager path2 m).max_disk_usage_percent :=
  ⟨rfl, rfl, rfl, rfl, rfl, rfl, rfl⟩

/-- C10: `kilobytes` and `megabytes` are multiplication by 1024 and 1024² in
the value type's `w`-bit arithmetic, and the defaults are exactly
`preallocate_bytes` = 1048576 (`u32`), `checkpoint_after_bytes` = 786432
(`u64`), and `buffer_bytes` = 16384 (`usize`). -/
theorem C10_kilobytes_megabytes (w n : Nat) {M : Type} (path : String) (m : M) :
    kilobytes w n = n * 1024 % 2 ^ w ∧
    megabytes w n = n * 1024 * 1024 % 2 ^ w ∧
    megabytes 32 1 = 1048576 ∧
    kilobytes 64 768 = 786432 ∧
    kilobytes 64 16 = 16384 ∧
    (Configuration.default_with_manager path m).preallocate_bytes = 1048576 ∧
    (Configuration.default_with_manager path m).checkpoint_after_bytes = 786432 ∧
    (Configuration.default_with_manager path m).buffer_bytes = 16384 :=
  ⟨rfl, megabytes_eq w n, by decide, by decide, by decide,
    by show megabytes 32 1 = 1048576; decide,
    by show kilobytes 64 768 = 786432; decide,
    by show kilobytes 64 16 = 16384; decide⟩

end Okaywal
